import Mathlib

/-!
Shallow embedding of `caffe2/contrib/gloo/allreduce_ops.h` (class
`AllreduceOp<Context>`): parameter-snapshot capture (`update`), snapshot
equality (`GlooParameters::operator==`), the one-time setup routine
(`AllreduceOp::initialize`, embedded as `initOnce`), the mode dispatch
switch, and the per-invocation entry point (`AllreduceOp::RunOnDevice`,
embedded as `runOnDevice`).

Modelling conventions:
 * buffer addresses (`const void*` / `void*` from `raw_data` /
   `raw_mutable_data`) are `Nat`; a `std::shared_ptr<::gloo::Context>`
   is identified by a `Nat` handle compared by identity, matching
   `shared_ptr` equality; `TypeMeta` is a `Nat` type tag;
 * operator input 0 (the context blob) is the `context` field of `Env`;
   tensor inputs `Input(1) .. Input(InputSize()-1)` are `Env.inputs`,
   outputs `Output(0) .. Output(OutputSize()-1)` are `Env.outputs`;
 * an out-of-range buffer access is modelled as an explicit `Fault`
   (`oobInput` / `oobOutput`) instead of undefined behaviour;
 * the outcome of `algorithm_->run()` is an external event passed in as
   `Option String` (`none` = success, `some msg` = a gloo `IoException`
   carrying `msg`);
 * `std::call_once(once_, ...)` is modelled sequentially: the `ready`
   flag is set only when the setup routine returns without a fault,
   so a fault leaves the flag clear, as `call_once` does on exception.
-/

namespace Gloo

/-- A tensor as the operator sees it: buffer address (`raw_data`),
element count (`size()`) and element-type tag (`meta()`). -/
structure Tensor where
  addr : Nat
  size : Nat
  meta : Nat
deriving DecidableEq, Repr

/-- The external arguments of one invocation: the context handle passed
as input 0, the tensor inputs `Input(1)..`, and the outputs. -/
structure Env where
  context : Nat
  inputs : List Tensor
  outputs : List Tensor
deriving DecidableEq, Repr

/-- Embeds `enum Mode { RING_FULL, RING_CHUNKED, HALVING_DOUBLING }`. -/
inductive Mode where
  | RING_FULL
  | RING_CHUNKED
  | HALVING_DOUBLING
deriving DecidableEq, Repr

/-- The operator-definition arguments the operator surface recognizes:
`status_blob` and `gpu_direct` are read by the constructor; an
`algorithm_mode` argument may be present in the definition (the spec's
configuration surface names it). -/
structure OperatorArgs where
  statusBlob : String
  gpuDirect : Bool
  algorithmMode : Option Mode
deriving DecidableEq, Repr

/-- Embeds `struct GlooParameters`: context handle, input buffer addresses,
output buffer addresses, element count, element-type tag. -/
structure GlooParameters where
  context : Nat
  inputs : List Nat
  outputs : List Nat
  size : Nat
  meta : Nat
deriving DecidableEq, Repr

/-- Embeds `GlooParameters::operator==`: compares `context`, `inputs`,
`outputs` and `size`; the `meta` field is not compared. -/
def GlooParameters.eq (a b : GlooParameters) : Bool :=
  a.context == b.context && a.inputs == b.inputs &&
    a.outputs == b.outputs && a.size == b.size

/-- Default-constructed `GlooParameters`: null context, empty vectors.
The indeterminate `size_t size` is fixed to 0; it is always overwritten
by `update` before being read. -/
def GlooParameters.empty : GlooParameters :=
  { context := 0, inputs := [], outputs := [], size := 0, meta := 0 }

/-- The faults the operator can raise: out-of-range accesses (modelled
explicitly), the four `CAFFE_ENFORCE` checks of the setup routine, the
parameter-drift enforce of `RunOnDevice`, the defensive enforce after
the mode switch, and a rethrown gloo `IoException`. -/
inductive Fault where
  | oobInput (i : Nat)
  | oobOutput (i : Nat)
  | countMismatch
  | aliasMismatch
  | sizeMismatch
  | typeMismatch
  | driftFault
  | unreachableCode
  | ioException (msg : String)
deriving DecidableEq, Repr

/-- Whether a fault is an out-of-range buffer access. -/
def Fault.isOob : Fault → Bool
  | .oobInput _ => true
  | .oobOutput _ => true
  | _ => false

/-- The mutable state of one `AllreduceOp` instance: the `once_` flag
(`ready`), the constructed algorithm binding (recorded as the mode whose
initializer built it), and the two `GlooParameters` members. -/
structure OpState where
  ready : Bool
  algorithm : Option Mode
  init : GlooParameters
  current : GlooParameters
deriving DecidableEq, Repr

/-- A freshly constructed operator instance. -/
def OpState.fresh : OpState :=
  { ready := false, algorithm := none,
    init := GlooParameters.empty, current := GlooParameters.empty }

/-- Embeds `std::vector::resize(n)` on a vector of addresses: truncate, or pad
with value-initialized (null) entries. -/
def resizeList (l : List Nat) (n : Nat) : List Nat :=
  l.take n ++ List.replicate (n - l.length) 0

/-- Embeds `AllreduceOp::update(params)`: sets `params.context` from input 0,
resizes `params.inputs` to `InputSize()-1` and `params.outputs` to
`OutputSize()`, fills `inputs[i] := Input(i+1).raw_data()` and
`outputs[i] := Output(i)->raw_mutable_data()` for `i < InputSize()-1`,
then `params.size := Output(0)->size()` and
`params.meta := Output(0)->meta()`. The loop's `Output(i)` access is out
of range when `OutputSize() < InputSize()-1`, and the final `Output(0)`
accesses are out of range when there is no output. -/
def update (prev : GlooParameters) (env : Env) : Except Fault GlooParameters :=
  let n := env.inputs.length
  let osz := env.outputs.length
  if n ≤ osz then
    match env.outputs with
    | [] => Except.error (Fault.oobOutput 0)
    | o0 :: _ =>
      Except.ok { context := env.context
                  inputs := env.inputs.map Tensor.addr
                  outputs := (env.outputs.take n).map Tensor.addr
                    ++ (resizeList prev.outputs osz).drop n
                  size := o0.size
                  meta := o0.meta }
  else Except.error (Fault.oobOutput osz)

/-- The `switch (mode)` of the setup routine: which algorithm
initializer the switch transfers control to; `none` models falling
through every case to the line after the switch. Each declared
enumerator has a case that returns, so no `Mode` value falls through. -/
def switchMode : Mode → Option Mode
  | Mode.RING_FULL => some Mode.RING_FULL
  | Mode.RING_CHUNKED => some Mode.RING_CHUNKED
  | Mode.HALVING_DOUBLING => some Mode.HALVING_DOUBLING

/-- The tail of the setup routine: run the initializer the switch
selects (recording which mode built the binding), or reach
`CAFFE_ENFORCE(false, "Unreachable code")` when no case was taken. -/
def dispatchMode (mode : Mode) (s : OpState) : Option Fault × OpState :=
  match switchMode mode with
  | some m => (none, { s with algorithm := some m })
  | none => (some Fault.unreachableCode, s)

/-- Mode choice of `AllreduceOp::initialize()`, the body `std::call_once` runs: the
mode is the local `Mode mode = HALVING_DOUBLING;` of line 77 — no
argument is consulted. -/
def chooseMode (_ : OperatorArgs) : Mode := Mode.HALVING_DOUBLING

/-- The mode selection as §4.2 step 1 and §6 of the spec describe it:
the `algorithm_mode` option selects the mode, halving-doubling when the
option is absent. Stated from the spec's words, for comparison with
`chooseMode`. -/
def specChooseMode (args : OperatorArgs) : Mode :=
  match args.algorithmMode with
  | some m => m
  | none => Mode.HALVING_DOUBLING

/-- Embeds `AllreduceOp::initialize()` as a state transformer: reads
`Input(1).nbytes()` (out of range without a tensor input), captures the
baseline snapshot via `update(init_)`, then runs the four
`CAFFE_ENFORCE` checks in source order — input count equals output
count, `init_.inputs[i] == init_.outputs[i]` elementwise, every
`Input(i).size()` equals `Input(1).size()`, every `Input(i).meta()`
equals `Input(1).meta()` — and finally dispatches on the mode. The
`once_` flag is managed by the caller (`runOnDevice`), not here. -/
def initOnce (args : OperatorArgs) (env : Env) (s : OpState) :
    Option Fault × OpState :=
  let mode := chooseMode args
  match env.inputs with
  | [] => (some (Fault.oobInput 1), s)
  | t1 :: rest =>
    match update s.init env with
    | Except.error f => (some f, s)
    | Except.ok ps =>
      let s1 := { s with init := ps }
      if ps.inputs.length = ps.outputs.length then
        if ps.inputs = ps.outputs then
          if rest.all (fun t => t.size == t1.size) then
            if rest.all (fun t => t.meta == t1.meta) then
              dispatchMode mode s1
            else (some Fault.typeMismatch, s1)
          else (some Fault.sizeMismatch, s1)
        else (some Fault.aliasMismatch, s1)
      else (some Fault.countMismatch, s1)

/-- The outcome of one `RunOnDevice` call: `return true`,
`return false` after `signalFailure` wrote the fault record (blob name
and exception message) into the named status blob, or a thrown fault. -/
inductive RunResult where
  | success
  | signalledFailure (blob : String) (msg : String)
  | fault (f : Fault)
deriving DecidableEq, Repr

/-- What one `RunOnDevice` call produces: its result, the instance
state afterwards, and whether `algorithm_->run()` was invoked. -/
structure StepResult where
  result : RunResult
  state : OpState
  ran : Bool
deriving DecidableEq, Repr

/-- Embeds `AllreduceOp::RunOnDevice()`: run the setup routine under
`std::call_once` (the flag is set only when it returns without fault),
recompute `current_` via `update`, enforce `current_ == init_`
("Inputs/outputs have changed"), then call `algorithm_->run()` whose
outcome is `gloo`; a gloo `IoException` is written to the status blob
and reported as `return false` when `status_blob` is non-empty, and
rethrown otherwise. -/
def runOnDevice (args : OperatorArgs) (env : Env) (gloo : Option String)
    (s : OpState) : StepResult :=
  let step :=
    if s.ready then (none, s)
    else
      match initOnce args env s with
      | (none, s1) => (none, { s1 with ready := true })
      | (some f, s1) => (some f, s1)
  match step with
  | (some f, s1) => { result := RunResult.fault f, state := s1, ran := false }
  | (none, s1) =>
    match update s1.current env with
    | Except.error f => { result := RunResult.fault f, state := s1, ran := false }
    | Except.ok cur =>
      let s2 := { s1 with current := cur }
      if GlooParameters.eq cur s2.init then
        match gloo with
        | none => { result := RunResult.success, state := s2, ran := true }
        | some msg =>
          if args.statusBlob = "" then
            { result := RunResult.fault (Fault.ioException msg), state := s2,
              ran := true }
          else
            { result := RunResult.signalledFailure args.statusBlob msg,
              state := s2, ran := true }
      else { result := RunResult.fault Fault.driftFault, state := s2, ran := false }

/-- Uniform element count across a buffer list, anchored at the first
buffer — the meaning of the size-check loop of the setup routine. -/
def uniformSize : List Tensor → Bool
  | [] => true
  | t :: rest => rest.all (fun u => u.size == t.size)

/-- Uniform element type across a buffer list, anchored at the first
buffer — the meaning of the type-check loop of the setup routine. -/
def uniformMeta : List Tensor → Bool
  | [] => true
  | t :: rest => rest.all (fun u => u.meta == t.meta)

/-- The structural validation of §4.2 step 3 as the spec words it, in
the spec's order: equal input/output counts, pairwise in-place
aliasing, uniform element count, uniform element type; `none` when all
hold. Stated from the spec, for comparison with `initOnce`. -/
def specValidate (env : Env) : Option Fault :=
  if env.inputs.length ≠ env.outputs.length then some Fault.countMismatch
  else if env.inputs.map Tensor.addr ≠ env.outputs.map Tensor.addr then
    some Fault.aliasMismatch
  else if ¬ uniformSize env.inputs then some Fault.sizeMismatch
  else if ¬ uniformMeta env.inputs then some Fault.typeMismatch
  else none

/-! ### Concrete fixtures for witnesses and scenarios -/

/-- An operator definition with no status blob configured. -/
def argsPlain : OperatorArgs :=
  { statusBlob := "", gpuDirect := false, algorithmMode := none }

/-- An operator definition with a status blob configured. -/
def argsBlob : OperatorArgs :=
  { statusBlob := "allreduce_status", gpuDirect := false, algorithmMode := none }

/-- An operator definition asking for the ring-full algorithm. -/
def argsRingFull : OperatorArgs :=
  { statusBlob := ""
    gpuDirect := false
    algorithmMode := some Mode.RING_FULL }

/-- A two-tensor in-place environment: both tensors hold 4 elements of
type tag 0, at addresses 100 and 200, outputs aliasing inputs. -/
def envA : Env :=
  { context := 7
    inputs := [⟨100, 4, 0⟩, ⟨200, 4, 0⟩]
    outputs := [⟨100, 4, 0⟩, ⟨200, 4, 0⟩] }

/-- Variant of `envA` after the second tensor changed element count from 4 to 9
while keeping its address; the first output still holds 4 elements. -/
def envB : Env :=
  { context := 7
    inputs := [⟨100, 4, 0⟩, ⟨200, 9, 0⟩]
    outputs := [⟨100, 4, 0⟩, ⟨200, 9, 0⟩] }

/-- Variant of `envA` after the first tensor moved to address 111: a drifted
buffer set. -/
def envDrift : Env :=
  { context := 7
    inputs := [⟨111, 4, 0⟩, ⟨200, 4, 0⟩]
    outputs := [⟨111, 4, 0⟩, ⟨200, 4, 0⟩] }

/-- One tensor input but two output slots: a count mismatch the setup
routine must reject. -/
def envCount : Env :=
  { context := 7
    inputs := [⟨100, 4, 0⟩]
    outputs := [⟨100, 4, 0⟩, ⟨200, 4, 0⟩] }

/-- The snapshot `update` captures from `envA`. -/
def psA : GlooParameters :=
  { context := 7, inputs := [100, 200], outputs := [100, 200],
    size := 4, meta := 0 }

/-- An operator instance already set up on `envA` with the default
halving-doubling binding. -/
def readyA : OpState :=
  { ready := true, algorithm := some Mode.HALVING_DOUBLING,
    init := psA, current := psA }

/-! ### Helper lemmas -/

/-- Resizing yields exactly the requested length, as
`std::vector::resize` does. -/
theorem resizeList_length (l : List Nat) (n : Nat) :
    (resizeList l n).length = n := by
  simp only [resizeList, List.length_append, List.length_take,
    List.length_replicate]
  omega

/-- When the loop and tail accesses of `update` are in range, `update`
returns the recomputed snapshot explicitly. -/
theorem update_ok (prev : GlooParameters) (c : Nat) (ins : List Tensor)
    (o0 : Tensor) (os : List Tensor)
    (hle : ins.length ≤ (o0 :: os).length) :
    update prev ⟨c, ins, o0 :: os⟩ = Except.ok
      { context := c
        inputs := ins.map Tensor.addr
        outputs := ((o0 :: os).take ins.length).map Tensor.addr
          ++ (resizeList prev.outputs (o0 :: os).length).drop ins.length
        size := o0.size
        meta := o0.meta } := by
  simp only [update]
  rw [if_pos hle]

/-- The mode switch always reaches the initializer of the scrutinized
mode. -/
theorem dispatchMode_eq (m : Mode) (s : OpState) :
    dispatchMode m s = (none, { s with algorithm := some m }) := by
  cases m <;> rfl

/-- Evaluates `specValidate` on a count mismatch. -/
theorem specValidate_count (env : Env)
    (h : env.inputs.length ≠ env.outputs.length) :
    specValidate env = some Fault.countMismatch := by
  rw [specValidate, if_pos h]

/-- Evaluates `specValidate` on an aliasing mismatch. -/
theorem specValidate_alias (env : Env)
    (h1 : env.inputs.length = env.outputs.length)
    (h2 : env.inputs.map Tensor.addr ≠ env.outputs.map Tensor.addr) :
    specValidate env = some Fault.aliasMismatch := by
  rw [specValidate, if_neg (not_not_intro h1), if_pos h2]

/-- Evaluates `specValidate` on a size mismatch. -/
theorem specValidate_size (env : Env)
    (h1 : env.inputs.length = env.outputs.length)
    (h2 : env.inputs.map Tensor.addr = env.outputs.map Tensor.addr)
    (h3 : ¬ uniformSize env.inputs = true) :
    specValidate env = some Fault.sizeMismatch := by
  rw [specValidate, if_neg (not_not_intro h1), if_neg (not_not_intro h2),
    if_pos h3]

/-- Evaluates `specValidate` on a type mismatch. -/
theorem specValidate_type (env : Env)
    (h1 : env.inputs.length = env.outputs.length)
    (h2 : env.inputs.map Tensor.addr = env.outputs.map Tensor.addr)
    (h3 : uniformSize env.inputs = true)
    (h4 : ¬ uniformMeta env.inputs = true) :
    specValidate env = some Fault.typeMismatch := by
  rw [specValidate, if_neg (not_not_intro h1), if_neg (not_not_intro h2),
    if_neg (not_not_intro h3), if_pos h4]

/-- Evaluates `specValidate` when every structural invariant holds. -/
theorem specValidate_ok (env : Env)
    (h1 : env.inputs.length = env.outputs.length)
    (h2 : env.inputs.map Tensor.addr = env.outputs.map Tensor.addr)
    (h3 : uniformSize env.inputs = true)
    (h4 : uniformMeta env.inputs = true) :
    specValidate env = none := by
  rw [specValidate, if_neg (not_not_intro h1), if_neg (not_not_intro h2),
    if_neg (not_not_intro h3), if_neg (not_not_intro h4)]

/-- Under in-range accesses, the fault component of the setup routine
is exactly the spec-side structural validation, in the spec's order. -/
theorem initOnce_fst (args : OperatorArgs) (env : Env) (s : OpState)
    (h1 : env.inputs ≠ [])
    (h2 : env.inputs.length ≤ env.outputs.length) :
    (initOnce args env s).1 = specValidate env := by
  obtain ⟨c, ins, outs⟩ := env
  match ins, outs with
  | [], _ => exact absurd rfl h1
  | t1 :: rest, [] => simp at h2
  | t1 :: rest, o0 :: os =>
    simp only at h2
    have hu := update_ok s.init c (t1 :: rest) o0 os h2
    by_cases hc : (t1 :: rest).length = (o0 :: os).length
    · have htake : ((o0 :: os).take (t1 :: rest).length) = o0 :: os := by
        rw [hc, List.take_length]
      have hdrop :
          (resizeList s.init.outputs (o0 :: os).length).drop
            (t1 :: rest).length = [] := by
        apply List.drop_eq_nil_of_le
        rw [resizeList_length, hc]
      by_cases ha : (t1 :: rest).map Tensor.addr = (o0 :: os).map Tensor.addr
      · by_cases hs : rest.all (fun t => t.size == t1.size) = true
        · by_cases hm : rest.all (fun t => t.meta == t1.meta) = true
          · rw [specValidate_ok _ hc ha (by rw [uniformSize]; exact hs)
              (by rw [uniformMeta]; exact hm)]
            simp only [initOnce, hu]
            rw [htake, hdrop, List.append_nil]
            rw [if_pos (by simp only [List.length_map]; exact hc)]
            rw [if_pos ha, if_pos hs, if_pos hm, dispatchMode_eq]
          · rw [specValidate_type _ hc ha (by rw [uniformSize]; exact hs)
              (by rw [uniformMeta]; exact hm)]
            simp only [initOnce, hu]
            rw [htake, hdrop, List.append_nil]
            rw [if_pos (by simp only [List.length_map]; exact hc)]
            rw [if_pos ha, if_pos hs, if_neg hm]
        · rw [specValidate_size _ hc ha (by rw [uniformSize]; exact hs)]
          simp only [initOnce, hu]
          rw [htake, hdrop, List.append_nil]
          rw [if_pos (by simp only [List.length_map]; exact hc)]
          rw [if_pos ha, if_neg hs]
      · rw [specValidate_alias _ hc ha]
        simp only [initOnce, hu]
        rw [htake, hdrop, List.append_nil]
        rw [if_pos (by simp only [List.length_map]; exact hc)]
        rw [if_neg ha]
    · rw [specValidate_count _ hc]
      simp only [initOnce, hu]
      rw [if_neg (by
        simp only [List.length_map, List.length_append, List.length_take,
          List.length_drop, resizeList_length]
        omega)]

/-- The setup routine never touches the `once_` flag, and whenever it
returns a fault it has not constructed an algorithm binding: the
`algorithm_` member is unchanged. -/
theorem initOnce_frame (args : OperatorArgs) (env : Env) (s : OpState) :
    (initOnce args env s).2.ready = s.ready ∧
      ((initOnce args env s).1 ≠ none →
        (initOnce args env s).2.algorithm = s.algorithm) := by
  unfold initOnce
  cases henv : env.inputs with
  | nil => exact ⟨rfl, fun _ => rfl⟩
  | cons t1 rest =>
    cases hu : update s.init env with
    | error f => exact ⟨rfl, fun _ => rfl⟩
    | ok ps =>
      simp only [dispatchMode_eq]
      split_ifs <;> exact ⟨rfl, by intro h; first | exact absurd rfl h | rfl⟩

/-! ### Claim theorems -/

/-- C2 counterexample: with `algorithm_mode = ring-full` present in the
operator definition, the setup routine still uses halving-doubling —
the mode the spec's selection rule would pick (`specChooseMode`) is
ring-full, so the claimed configuration-driven selection fails at this
concrete input. -/
theorem C2_mode_ignores_configuration :
    chooseMode argsRingFull = Mode.HALVING_DOUBLING ∧
      specChooseMode argsRingFull = Mode.RING_FULL ∧
      Mode.HALVING_DOUBLING ≠ Mode.RING_FULL :=
  ⟨rfl, rfl, by decide⟩

/-- C2 (amended): the algorithm mode used at initialization is always
halving-doubling, whatever the operator's configuration says; whenever
the setup routine succeeds, the stored binding is the halving-doubling
one. -/
theorem C2_mode_always_halving_doubling :
    (∀ args : OperatorArgs, chooseMode args = Mode.HALVING_DOUBLING) ∧
      (∀ (args : OperatorArgs) (env : Env) (s : OpState),
        (initOnce args env s).1 = none →
          (initOnce args env s).2.algorithm = some Mode.HALVING_DOUBLING) := by
  refine ⟨fun _ => rfl, fun args env s h => ?_⟩
  unfold initOnce at h ⊢
  cases henv : env.inputs with
  | nil => rw [henv] at h; simp at h
  | cons t1 rest =>
    rw [henv] at h
    cases hu : update s.init env with
    | error f => rw [hu] at h; simp at h
    | ok ps =>
      rw [hu] at h
      simp only [dispatchMode_eq] at h ⊢
      split_ifs at h ⊢
      all_goals simp_all [chooseMode]

/-- C3: snapshot equality compares exactly the context reference, the
input addresses, the output addresses and the element count; the
element-type tag is excluded, so two snapshots differing only in
element type compare equal. -/
theorem C3_eq_ignores_meta :
    (∀ a b : GlooParameters, GlooParameters.eq a b = true ↔
      (a.context = b.context ∧ a.inputs = b.inputs ∧
        a.outputs = b.outputs ∧ a.size = b.size)) ∧
      (∀ (a : GlooParameters) (m : Nat),
        GlooParameters.eq a { a with meta := m } = true) := by
  constructor
  · intro a b
    simp [GlooParameters.eq, and_assoc]
  · intro a m
    simp [GlooParameters.eq]

/-- C8: for every value of the mode enumeration the switch transfers
control to the matching initializer and returns, so the defensive
unreachable-code enforce after the switch is never raised. -/
theorem C8_dispatch_never_unreachable :
    (∀ m : Mode, switchMode m = some m) ∧
      (∀ (m : Mode) (s : OpState),
        dispatchMode m s = (none, { s with algorithm := some m })) ∧
      (∀ (m : Mode) (s : OpState),
        (dispatchMode m s).1 ≠ some Fault.unreachableCode) := by
  refine ⟨fun m => by cases m <;> rfl, dispatchMode_eq, fun m s => ?_⟩
  rw [dispatchMode_eq]
  simp

/-- C1: on a post-setup invocation whose recomputed snapshot is unequal
to the baseline, the call fails with the parameter-drift enforce
("Inputs/outputs have changed") and the bound algorithm is not run. -/
theorem C1_drift_faults_and_skips_run (args : OperatorArgs) (env : Env)
    (gloo : Option String) (s : OpState) (cur : GlooParameters)
    (hready : s.ready = true)
    (hcur : update s.current env = Except.ok cur)
    (hneq : GlooParameters.eq cur s.init = false) :
    (runOnDevice args env gloo s).result = RunResult.fault Fault.driftFault ∧
      (runOnDevice args env gloo s).ran = false := by
  simp [runOnDevice, hready, hcur, hneq]

/-- C1 witness: a ready instance set up on `envA` invoked on the
drifted buffers of `envDrift`. -/
theorem C1_drift_witness :
    (runOnDevice argsPlain envDrift none readyA).result
        = RunResult.fault Fault.driftFault ∧
      (runOnDevice argsPlain envDrift none readyA).ran = false :=
  C1_drift_faults_and_skips_run argsPlain envDrift none readyA
    { context := 7, inputs := [111, 200], outputs := [111, 200],
      size := 4, meta := 0 }
    rfl rfl rfl

/-- C5: on an invocation that reaches the bound algorithm, a
communication-layer fault raised by `run()` is written to the named
status slot and reported as a non-fatal `return false` when a failure
channel is configured, and is rethrown as a hard failure when none is;
a successful `run()` reports success. -/
theorem C5_fault_signaling (args : OperatorArgs) (env : Env) (s : OpState)
    (cur : GlooParameters) (msg : String)
    (hready : s.ready = true)
    (hcur : update s.current env = Except.ok cur)
    (heq : GlooParameters.eq cur s.init = true) :
    (args.statusBlob ≠ "" →
        (runOnDevice args env (some msg) s).result
          = RunResult.signalledFailure args.statusBlob msg) ∧
      (args.statusBlob = "" →
        (runOnDevice args env (some msg) s).result
          = RunResult.fault (Fault.ioException msg)) ∧
      (runOnDevice args env none s).result = RunResult.success := by
  refine ⟨fun hb => ?_, fun hb => ?_, ?_⟩
  · simp [runOnDevice, hready, hcur, heq, hb]
  · simp [runOnDevice, hready, hcur, heq, hb]
  · simp [runOnDevice, hready, hcur, heq]

/-- C5 witness: a ready instance with a configured failure channel
signals the fault non-fatally; the same instance with no channel and a
clean run succeeds. -/
theorem C5_fault_signaling_witness :
    (argsBlob.statusBlob ≠ "" →
        (runOnDevice argsBlob envA (some "peer unreachable") readyA).result
          = RunResult.signalledFailure argsBlob.statusBlob "peer unreachable") ∧
      (argsBlob.statusBlob = "" →
        (runOnDevice argsBlob envA (some "peer unreachable") readyA).result
          = RunResult.fault (Fault.ioException "peer unreachable")) ∧
      (runOnDevice argsBlob envA none readyA).result = RunResult.success :=
  C5_fault_signaling argsBlob envA readyA psA "peer unreachable" rfl rfl rfl

/-- C7: a post-setup invocation never mutates the baseline snapshot,
the stored algorithm binding or the once-flag, on every path: success,
drift fault, out-of-range access or communication fault. -/
theorem C7_post_setup_frame (args : OperatorArgs) (env : Env)
    (gloo : Option String) (s : OpState) (h : s.ready = true) :
    (runOnDevice args env gloo s).state.init = s.init ∧
      (runOnDevice args env gloo s).state.algorithm = s.algorithm ∧
      (runOnDevice args env gloo s).state.ready = true := by
  unfold runOnDevice
  rw [if_pos h]
  dsimp only
  cases hu : update s.current env with
  | error f => exact ⟨rfl, rfl, h⟩
  | ok cur =>
    dsimp only
    by_cases he : GlooParameters.eq cur s.init = true
    · rw [if_pos he]
      cases gloo with
      | none => exact ⟨rfl, rfl, h⟩
      | some msg =>
        dsimp only
        by_cases hb : args.statusBlob = ""
        · rw [if_pos hb]; exact ⟨rfl, rfl, h⟩
        · rw [if_neg hb]; exact ⟨rfl, rfl, h⟩
    · rw [if_neg he]
      exact ⟨rfl, rfl, h⟩

/-- C7 witness: a ready instance run once more on its own buffers. -/
theorem C7_post_setup_frame_witness :
    (runOnDevice argsPlain envA none readyA).state.init = readyA.init ∧
      (runOnDevice argsPlain envA none readyA).state.algorithm
        = readyA.algorithm ∧
      (runOnDevice argsPlain envA none readyA).state.ready = true :=
  C7_post_setup_frame argsPlain envA none readyA rfl

/-- Validation only reports the four structural-invariant faults,
never an out-of-range access. -/
theorem specValidate_oob_free (env : Env) (f : Fault)
    (h : specValidate env = some f) : f.isOob = false := by
  unfold specValidate at h
  split_ifs at h
  all_goals simp only [Option.some.injEq] at h
  all_goals (subst h; rfl)

/-- C4: under in-range accesses, the setup routine's validation agrees
with the spec's ordered structural checks — equal counts, pairwise
in-place aliasing, uniform element count, uniform element type — and
on any validation fault no algorithm binding has been constructed. -/
theorem C4_validation_refines_spec (args : OperatorArgs) (env : Env)
    (s : OpState)
    (h1 : env.inputs ≠ [])
    (h2 : env.inputs.length ≤ env.outputs.length) :
    (initOnce args env s).1 = specValidate env ∧
      ((initOnce args env s).1 ≠ none →
        (initOnce args env s).2.algorithm = s.algorithm) :=
  ⟨initOnce_fst args env s h1 h2, (initOnce_frame args env s).2⟩

/-- C4 witness: a fresh instance handed one tensor input and two
output slots fails the count check without constructing a binding. -/
theorem C4_validation_witness :
    (initOnce argsPlain envCount OpState.fresh).1 = specValidate envCount ∧
      ((initOnce argsPlain envCount OpState.fresh).1 ≠ none →
        (initOnce argsPlain envCount OpState.fresh).2.algorithm
          = OpState.fresh.algorithm) :=
  C4_validation_refines_spec argsPlain envCount OpState.fresh
    (by decide) (by decide)

/-- C9: the recomputed snapshot takes element count and type solely
from the first output, so a second invocation in which only the second
tensor's element count changed (same context, same addresses, same
first-output count) passes the drift check and execution proceeds. -/
theorem C9_second_buffer_count_change_undetected :
    envB.context = envA.context ∧
      envB.inputs.map Tensor.addr = envA.inputs.map Tensor.addr ∧
      envB.outputs.map Tensor.addr = envA.outputs.map Tensor.addr ∧
      (envB.outputs.map Tensor.size).head?
        = (envA.outputs.map Tensor.size).head? ∧
      envB.inputs.map Tensor.size ≠ envA.inputs.map Tensor.size ∧
      (runOnDevice argsPlain envA none OpState.fresh).result
        = RunResult.success ∧
      (runOnDevice argsPlain envB none
          (runOnDevice argsPlain envA none OpState.fresh).state).result
        = RunResult.success ∧
      (runOnDevice argsPlain envB none
          (runOnDevice argsPlain envA none OpState.fresh).state).ran
        = true := by
  decide

/-- C10: with the context in input 0, at least one tensor input, and
as many outputs as tensor inputs, every buffer access of the snapshot
recomputation and of the setup routine is in bounds — `update`
succeeds, and the setup routine can only fault on a structural check,
never on an access; with no tensor input, the unconditional access to
input 1 is out of bounds. -/
theorem C10_access_bounds :
    (∀ (prev : GlooParameters) (env : Env), env.inputs ≠ [] →
        env.outputs.length = env.inputs.length →
        ∃ ps, update prev env = Except.ok ps) ∧
      (∀ (args : OperatorArgs) (env : Env) (s : OpState),
        env.inputs ≠ [] → env.outputs.length = env.inputs.length →
        ∀ f, (initOnce args env s).1 = some f → f.isOob = false) ∧
      (∀ (args : OperatorArgs) (env : Env) (s : OpState),
        env.inputs = [] →
        (initOnce args env s).1 = some (Fault.oobInput 1)) := by
  refine ⟨fun prev env h1 h2 => ?_, fun args env s h1 h2 f hf => ?_,
    fun args env s h => ?_⟩
  · obtain ⟨c, ins, outs⟩ := env
    simp only at h1 h2
    cases outs with
    | nil =>
      cases ins with
      | nil => exact absurd rfl h1
      | cons a b => simp at h2
    | cons o0 os => exact ⟨_, update_ok prev c ins o0 os h2.ge⟩
  · rw [initOnce_fst args env s h1 h2.ge] at hf
    exact specValidate_oob_free env f hf
  · unfold initOnce
    rw [h]

end Gloo
